import Mathlib

/-!
Verification of the plugin registry / orchestration layer and the per-domain
cost-normalization engine of the construction-ai-platform backend
(`app/plugins/base.py`, `app/plugins/registry.py`, and the domain plugins
`architectural/doors_windows_plugin.py`, `architectural/walls_plugin.py`,
`mep/plumbing_plugin.py`).

The Python code is shallowly embedded: JSON values become an inductive `Json`
type, Python dicts become ordered association lists `List (String × Json)`,
Python floats become `ℚ` (all constants in the source are exact decimals),
and code that can raise becomes `Except String`.  Operations that the source
performs on dynamically typed values (`.get`, `.lower()`, `+=`, iteration,
`re.search`) are modelled by total Lean functions that return the Python
result on the types the source can actually receive and an `Except.error`
exactly where the Python operation would raise (`AttributeError`,
`TypeError`, ...).
-/

/-- JSON values, as produced by `json.loads` and handed between plugins.
Objects are ordered key/value lists, mirroring Python's insertion-ordered
dicts. -/
inductive Json where
  | null
  | bool (b : Bool)
  | num (q : ℚ)
  | str (s : String)
  | arr (elems : List Json)
  | obj (fields : List (String × Json))

/-- A Python dict with `Json` values: an insertion-ordered association list. -/
abbrev Obj := List (String × Json)

/-- Python truthiness (`bool(x)`) for the values a `Json` can hold. -/
def truthy : Json → Bool
  | .null => false
  | .bool b => b
  | .num q => q != 0
  | .str s => !s.isEmpty
  | .arr xs => !xs.isEmpty
  | .obj fs => !fs.isEmpty

/-- `k in d` for a Python dict `d`. -/
def hasKey (fs : Obj) (k : String) : Bool :=
  fs.any (fun kv => kv.1 == k)

/-- `d.get(k, dflt)` when `d` is statically known to be a dict: the stored
value if the key is present (even if it is `None`), else the default. -/
def lookupD (fs : Obj) (k : String) (dflt : Json) : Json :=
  (fs.lookup k).getD dflt

/-- `d[k] = v` on an insertion-ordered dict: overwrite in place when the key
exists, append otherwise. -/
def setKey {α : Type} : List (String × α) → String → α → List (String × α)
  | [], k, v => [(k, v)]
  | (k0, v0) :: rest, k, v =>
    if k0 = k then (k0, v) :: rest else (k0, v0) :: setKey rest k v

/-- `x.get(k, dflt)` on a dynamically typed value: raises `AttributeError`
when `x` is not a dict. -/
def pyGet (j : Json) (k : String) (dflt : Json) : Except String Json :=
  match j with
  | .obj fs => .ok (lookupD fs k dflt)
  | _ => .error "AttributeError: object has no attribute get"

/-- `str.lower()`, character by character. -/
def pyLower (s : String) : String :=
  String.mk (s.data.map Char.toLower)

/-- `x.get(k, "").lower()`: the looked-up value must be a string (a present
`None`, a number, ... raises `AttributeError` on `.lower`). -/
def pyGetLower (j : Json) (k : String) : Except String String := do
  match (← pyGet j k (.str "")) with
  | .str s => .ok (pyLower s)
  | _ => .error "AttributeError: object has no attribute lower"

/-- Numeric coercion performed by Python `+` / `*` on a stored JSON value:
numbers and bools take part in arithmetic, everything else raises
`TypeError`. -/
def Json.asNum : Json → Except String ℚ
  | .num q => .ok q
  | .bool b => .ok (if b then 1 else 0)
  | _ => .error "TypeError: unsupported operand type"

/-- `for x in j`: lists yield their elements, dicts their keys, strings their
characters; other values raise `TypeError`. -/
def pyIter : Json → Except String (List Json)
  | .arr xs => .ok xs
  | .obj fs => .ok (fs.map (fun kv => .str kv.1))
  | .str s => .ok (s.data.map (fun c => .str (String.mk [c])))
  | _ => .error "TypeError: object is not iterable"

/-- Python's substring test `pat in s`. -/
def pyIn (pat s : String) : Bool :=
  s.data.tails.any (fun t => pat.data.isPrefixOf t)

/-- `{"error": msg}` — the failure shape used throughout the plugin layer. -/
def errObj (msg : String) : Json :=
  .obj [("error", .str msg)]

/-! ## The unit/quantity parser

`re.search` with the numeric pattern on `s` followed by `float(match.group(1))`:
the leftmost match starts at the first digit of `s`; the integer part is the
maximal digit run there, and a fractional part is included only when a dot
followed by at least one digit comes right after. -/

/-- Value of a digit list read in base 10. -/
def digitsVal (l : List Char) : Nat :=
  l.foldl (fun a c => 10 * a + (c.toNat - 48)) 0

/-- `float(group(1))` for a match starting at the head of `l` (the head is a
digit). -/
def numTokenVal (l : List Char) : ℚ :=
  let intPart := l.takeWhile Char.isDigit
  let rest := l.dropWhile Char.isDigit
  match rest with
  | '.' :: r =>
    let frac := r.takeWhile Char.isDigit
    if frac.isEmpty then (digitsVal intPart : ℚ)
    else (digitsVal intPart : ℚ) + (digitsVal frac : ℚ) / 10 ^ frac.length
  | _ => (digitsVal intPart : ℚ)

/-- The first decimal number of a string, per `re.search` with the numeric pattern on `s`;
`none` when the string has no digit. -/
def firstNumber : List Char → Option ℚ
  | [] => none
  | c :: cs => if c.isDigit then some (numTokenVal (c :: cs)) else firstNumber cs

/-- `re.search` with the numeric pattern on `x` on a dynamically typed value: anything
but a string (including a present `None`) raises `TypeError`, which the
plugin `except (ValueError, AttributeError)` clauses do not catch. -/
def reSearchNum (j : Json) : Except String (Option ℚ) :=
  match j with
  | .str s => .ok (firstNumber s.data)
  | _ => .error "TypeError: expected string or bytes-like object"

/-- Python `round(q, 2)` (round half to even), on the exact rationals that
model the source's decimal constants. -/
def pyRound2Num (fl : ℤ) (r : ℚ) : ℤ :=
  if r < 1 / 2 then fl
  else if 1 / 2 < r then fl + 1
  else if fl % 2 = 0 then fl else fl + 1

def pyRound2 (q : ℚ) : ℚ :=
  (pyRound2Num ⌊q * 100⌋ (q * 100 - (⌊q * 100⌋ : ℚ)) : ℚ) / 100

/-! ## The fenced-block extractor

The fenced-block regex search (lazy, DOTALL): the match starts at the
first occurrence of "```json\n" (any such occurrence is followed by a closing
"\n```" iff the first one is), and the lazy group ends at the first "\n```"
after it. -/

/-- Split a character list at the first occurrence of `pat`, returning the
part before and the part after the occurrence. -/
def splitFirst (pat : List Char) : List Char → Option (List Char × List Char)
  | [] => if pat.isEmpty then some ([], []) else none
  | c :: cs =>
    if pat.isPrefixOf (c :: cs) then some ([], List.drop pat.length (c :: cs))
    else (splitFirst pat cs).map (fun pr => (c :: pr.1, pr.2))

/-- The contents of the first ```json fenced block of `s`, if any. -/
def extractFenced (s : String) : Option String :=
  match splitFirst "```json\n".data s.data with
  | none => none
  | some (_, rest) =>
    match splitFirst "\n```".data rest with
    | none => none
    | some (content, _) => some (String.mk content)

/-! ## The plugin contract and manager (`app/plugins/base.py`) -/

/-- `AnalysisPlugin.validate_input`: `bool(text and text.strip())` — the
text is non-empty after stripping leading and trailing whitespace. -/
def validateInputDefault (text : String) : Bool :=
  !((text.data.dropWhile Char.isWhitespace).reverse.dropWhile Char.isWhitespace).isEmpty

/-- A plugin instance as the manager sees it.  `analyze` and
`format_results` return `Except String` so that a raised exception is an
explicit `.error`. -/
structure Plugin where
  id : String
  validate_input : String → Bool
  analyze : String → Option Json → Except String Json
  format_results : Json → Except String Json

/-- `PluginManager` state: the id-keyed instance map and the enabled set. -/
structure Manager where
  plugins : String → Option Plugin
  enabled : List String

/-- `PluginManager.__init__`: empty map, empty enabled set. -/
def initManager : Manager :=
  { plugins := fun _ => none, enabled := [] }

/-- `PluginManager.register_plugin`. -/
def Manager.register_plugin (m : Manager) (p : Plugin) : Except String Manager :=
  if p.id = "" then .error "Plugin ID cannot be empty"
  else .ok { m with plugins := fun x => if x = p.id then some p else m.plugins x }

def notFoundMsg (pid : String) : String :=
  s!"Plugin with ID \x27{pid}\x27 not found"

def notEnabledMsg (pid : String) : String :=
  s!"Plugin with ID \x27{pid}\x27 is not enabled"

def invalidInputMsg : String :=
  "Invalid input text for analysis"

/-- `PluginManager.enable_plugin`: unknown ids fail with "not found". -/
def Manager.enable_plugin (m : Manager) (pid : String) : Except String Manager :=
  if (m.plugins pid).isSome then
    .ok { m with enabled := if pid ∈ m.enabled then m.enabled else m.enabled ++ [pid] }
  else .error (notFoundMsg pid)

/-- `PluginManager.disable_plugin`: removes the id when enabled, no-op
otherwise. -/
def Manager.disable_plugin (m : Manager) (pid : String) : Manager :=
  { m with enabled := m.enabled.filter (fun x => x != pid) }

/-- `PluginManager.run_analysis`: not-found, not-enabled and invalid-input
checks in that order, then `format_results(analyze(text, context))`. -/
def Manager.run_analysis (m : Manager) (text pid : String) (ctx : Option Json) :
    Except String Json :=
  match m.plugins pid with
  | none => .error (notFoundMsg pid)
  | some p =>
    if pid ∈ m.enabled then
      if p.validate_input text then (p.analyze text ctx).bind p.format_results
      else .error invalidInputMsg
    else .error (notEnabledMsg pid)

/-- One entry of the `run_all_enabled_plugins` result map: the plugin's
result, or `{"error": str(e)}` when `run_analysis` raised. -/
def runEntry (m : Manager) (text : String) (ctx : Option Json) (pid : String) : Json :=
  match m.run_analysis text pid ctx with
  | .ok r => r
  | .error e => errObj e

/-- `PluginManager.run_all_enabled_plugins`: the id-keyed result map over
the enabled set, with per-plugin failure isolation. -/
def Manager.run_all_enabled_plugins (m : Manager) (text : String) (ctx : Option Json) :
    List (String × Json) :=
  m.enabled.map (fun pid => (pid, runEntry m text ctx pid))

/-- The manager with one id dropped from the enabled set ("as if the plugin
were absent"). -/
def withoutEnabled (m : Manager) (pid : String) : Manager :=
  { m with enabled := m.enabled.filter (fun x => x != pid) }

/-! ## The registry (`app/plugins/registry.py`) -/

/-- A plugin class as stored by the module-level registry: its class name
and its `id` class attribute. -/
structure PluginClass where
  klass : String
  id : String
deriving DecidableEq

def noIdMsg (klass : String) : String :=
  s!"Plugin class {klass} has no ID"

/-- `register_plugin` of `registry.py`: empty ids are rejected with
`ValueError`; re-registering an existing id overwrites it and logs a warning
(the returned `Bool` is true iff the warning fired). -/
def registerPluginClass (reg : List (String × PluginClass)) (c : PluginClass) :
    Except String (List (String × PluginClass) × Bool) :=
  if c.id = "" then .error (noIdMsg c.klass)
  else .ok (setKey reg c.id c, (reg.lookup c.id).isSome)

/-- `get_plugin_by_id`. -/
def get_plugin_by_id (reg : List (String × PluginClass)) (pid : String) :
    Option PluginClass :=
  reg.lookup pid

/-- The registry state a caller holds after a `register_plugin` call: the
new map on success, the old map when the call raised (the source raises
before mutating `_PLUGINS`). -/
def registryAfter (reg : List (String × PluginClass)) (c : PluginClass) :
    List (String × PluginClass) :=
  match registerPluginClass reg c with
  | .ok (r, _) => r
  | .error _ => reg

/-! ## The cost table resolver

Both architectural plugins resolve a per-unit price with the same inline
loop: start from the table's `"general"` entry, walk the table in definition
order, and take the first keyword that is a substring of the (lowercased)
type string. -/

/-- The inline resolver loop (`unit_cost = costs.get("general"); for k, cost
in costs.items(): if k in typ: unit_cost = cost; break`). -/
def resolveLoop (dflt : ℚ) : List (String × ℚ) → String → ℚ
  | [], _ => dflt
  | (k, v) :: rest, typ => if pyIn k typ then v else resolveLoop dflt rest typ

/-- Modelled from the spec words of §4.5 (for comparison against
`resolveLoop`): the first keyword in table-definition order that occurs as a
substring wins; when none matches, the `"general"` fallback price is used. -/
def resolveSpec (table : List (String × ℚ)) (typ : String) : ℚ :=
  match table.find? (fun kv => pyIn kv.1 typ) with
  | some kv => kv.2
  | none => (table.lookup "general").getD 0

/-- `None` (no result) or `round(q, 2)` guarded by `q > 0`:
`round(cost, 2) if cost > 0 else None`. -/
def costJson (q : ℚ) : Json :=
  if q > 0 then .num (pyRound2 q) else .null

/-- `count if count > 0 else None`. -/
def countJson (q : ℚ) : Json :=
  if q > 0 then .num q else .null

namespace DoorsWindowsPlugin

/-- `door_costs` of `DoorsWindowsPlugin.format_results`, in source order. -/
def door_costs : List (String × ℚ) :=
  [("hollow core", 150), ("solid core", 250), ("fire rated", 350),
   ("metal", 400), ("glass", 500), ("sliding", 450), ("bi-fold", 300),
   ("pocket", 350), ("french", 550), ("general", 300)]

/-- `window_costs` of `DoorsWindowsPlugin.format_results`, in source order. -/
def window_costs : List (String × ℚ) :=
  [("fixed", 300), ("single hung", 350), ("double hung", 400),
   ("casement", 450), ("awning", 400), ("sliding", 450), ("bay", 1200),
   ("bow", 1500), ("picture", 600), ("general", 400)]

/-- One iteration of the door loop: count the quantity, resolve the unit
cost from the type, parse the width (absent → "0"), apply the >42in
oversize premium, and accumulate `quantity * unit_cost`. -/
def doorStep (st : ℚ × ℚ) (door : Json) : Except String (ℚ × ℚ) := do
  let qj ← pyGet door "quantity" (.num 1)
  let q ← qj.asNum
  let count := st.1 + q
  let typ ← pyGetLower door "type"
  let base := resolveLoop ((door_costs.lookup "general").getD 0) door_costs typ
  let wOpt ← reSearchNum (← pyGet door "width" (.str "0"))
  let width := wOpt.getD 0
  let unit := if width > 42 then base * 1.25 else base
  .ok (count, st.2 + q * unit)

/-- One iteration of the window loop: quantity, type-resolved unit cost,
area from width × height (proportional premium above 20 sqft), and the
glazing premiums, in source order. -/
def windowStep (st : ℚ × ℚ) (w : Json) : Except String (ℚ × ℚ) := do
  let qj ← pyGet w "quantity" (.num 1)
  let q ← qj.asNum
  let count := st.1 + q
  let typ ← pyGetLower w "type"
  let base := resolveLoop ((window_costs.lookup "general").getD 0) window_costs typ
  let wOpt ← reSearchNum (← pyGet w "width" (.str "0"))
  let hOpt ← reSearchNum (← pyGet w "height" (.str "0"))
  let area : ℚ :=
    match wOpt, hOpt with
    | some a, some b => a * b
    | _, _ => 0
  let c1 := if area > 20 then base * (area / 15) else base
  let gl ← pyGetLower w "glazing"
  let c2 := if pyIn "low-e" gl || pyIn "low e" gl then c1 * 1.1 else c1
  let c3 := if pyIn "tempered" gl then c2 * 1.15 else c2
  let c4 := if pyIn "insulated" gl || pyIn "double" gl then c3 * 1.2 else c3
  let c5 := if pyIn "triple" gl then c4 * 1.3 else c4
  .ok (count, st.2 + q * c5)

/-- `sum(schedule.get("count", 0) for schedule in ...)`. -/
def scheduleStep (acc : ℚ) (s : Json) : Except String ℚ := do
  let cj ← pyGet s "count" (.num 0)
  let c ← cj.asNum
  .ok (acc + c)

/-- The four numbers the computation path derives from the extraction:
door count, window count, door cost, window cost (with the schedule-count
fallbacks applied). -/
def computeVals (fs : Obj) : Except String (ℚ × ℚ × ℚ × ℚ) := do
  let doors ← pyIter (lookupD fs "doors" (.arr []))
  let (dc0, dcost) ← doors.foldlM doorStep (0, 0)
  let windows ← pyIter (lookupD fs "windows" (.arr []))
  let (wc0, wcost) ← windows.foldlM windowStep (0, 0)
  let dc ←
    if dc0 = 0 ∧ truthy (lookupD fs "door_schedule" .null) then do
      let sch ← pyIter (lookupD fs "door_schedule" (.arr []))
      sch.foldlM scheduleStep 0
    else pure dc0
  let wc ←
    if wc0 = 0 ∧ truthy (lookupD fs "window_schedule" .null) then do
      let sch ← pyIter (lookupD fs "window_schedule" (.arr []))
      sch.foldlM scheduleStep 0
    else pure wc0
  .ok (dc, wc, dcost, wcost)

/-- The five writes into `results["cost_estimates"]`, in source order. -/
def costBlock (ce : Obj) (dc wc dcost wcost : ℚ) : Obj :=
  setKey (setKey (setKey (setKey (setKey ce
    "doors_total_count" (countJson dc))
    "windows_total_count" (countJson wc))
    "estimated_doors_cost" (costJson dcost))
    "estimated_windows_cost" (costJson wcost))
    "currency" (.str "USD")

/-- The computation path of `format_results`, writing the assembled cost
block back onto the result (`ce` is the pre-existing `cost_estimates` dict,
`[]` when the key was absent). -/
def compute (fs ce : Obj) : Except String Obj :=
  (computeVals fs).map (fun v =>
    setKey fs "cost_estimates" (.obj (costBlock ce v.1 v.2.1 v.2.2.1 v.2.2.2)))

/-- `DoorsWindowsPlugin.format_results`: pass through on `"error"`;
short-circuit when the result already carries a truthy
`estimated_doors_cost`; otherwise compute and write the cost block. -/
def format_results (fs : Obj) : Except String Obj :=
  if hasKey fs "error" then .ok fs
  else
    match fs.lookup "cost_estimates" with
    | none => compute fs []
    | some (.obj ce) =>
      if truthy (lookupD ce "estimated_doors_cost" .null) then .ok fs
      else compute fs ce
    | some _ => .error "AttributeError: object has no attribute get"

end DoorsWindowsPlugin

namespace PlumbingSystemsPlugin

/-- `costs` of `PlumbingSystemsPlugin.format_results`, in source order. -/
def costs : List (String × ℚ) :=
  [("copper", 15), ("pex", 8), ("cpvc", 6),
   ("cast_iron", 25), ("pvc", 5), ("abs", 6),
   ("toilet", 350), ("urinal", 400), ("sink", 250), ("lavatory", 300),
   ("shower", 500), ("tub", 700), ("drinking_fountain", 800),
   ("water_heater_electric", 1200), ("water_heater_gas", 1500),
   ("water_heater_tankless", 2000),
   ("gas_piping", 20), ("med_gas", 35),
   ("general", 2000)]

/-- `costs["k"]` (every key used by the source is present). -/
def cost (k : String) : ℚ :=
  (costs.lookup k).getD 0

/-- The cold-water pipe-material chain (`copper`/`pex`/`cpvc`/`pvc`). -/
def coldPipeCost (pm : String) : ℚ :=
  if pyIn "copper" pm then cost "copper"
  else if pyIn "pex" pm then cost "pex"
  else if pyIn "cpvc" pm then cost "cpvc"
  else if pyIn "pvc" pm then cost "pvc"
  else cost "general"

/-- The hot-water pipe-material chain (`copper`/`pex`/`cpvc`). -/
def hotPipeCost (pm : String) : ℚ :=
  if pyIn "copper" pm then cost "copper"
  else if pyIn "pex" pm then cost "pex"
  else if pyIn "cpvc" pm then cost "cpvc"
  else cost "general"

/-- The sanitary drainage chain (`cast iron`/`pvc`/`abs`). -/
def sanitaryPipeCost (pm : String) : ℚ :=
  if pyIn "cast" pm && pyIn "iron" pm then cost "cast_iron"
  else if pyIn "pvc" pm then cost "pvc"
  else if pyIn "abs" pm then cost "abs"
  else cost "general"

/-- The storm drainage chain (`cast iron`/`pvc`). -/
def stormPipeCost (pm : String) : ℚ :=
  if pyIn "cast" pm && pyIn "iron" pm then cost "cast_iron"
  else if pyIn "pvc" pm then cost "pvc"
  else cost "general"

/-- Water-supply contribution: 100 ft of cold pipe, 75 ft of hot pipe, plus
50 ft when recirculation is flagged. -/
def waterSupplyCost (fs : Obj) : Except String ℚ := do
  let ws := lookupD fs "water_supply" (.obj [])
  if truthy ws then do
    let cold ← pyGet ws "domestic_cold" (.obj [])
    let m1 ←
      if truthy cold then do
        let pm ← pyGetLower cold "pipe_material"
        pure (coldPipeCost pm * 100)
      else pure 0
    let hot ← pyGet ws "domestic_hot" (.obj [])
    let m2 ←
      if truthy hot then do
        let pm ← pyGetLower hot "pipe_material"
        let pcost := hotPipeCost pm
        let recirc ← pyGet hot "recirculation" .null
        pure (pcost * 75 + (if truthy recirc then pcost * 50 else 0))
      else pure 0
    .ok (m1 + m2)
  else .ok 0

/-- Drainage contribution: 100 ft sanitary, 100 ft storm, and a 2000 base
cost when a grease interceptor type is given. -/
def drainageCost (fs : Obj) : Except String ℚ := do
  let dr := lookupD fs "drainage" (.obj [])
  if truthy dr then do
    let san ← pyGet dr "sanitary" (.obj [])
    let m1 ←
      if truthy san then do
        let pm ← pyGetLower san "pipe_material"
        pure (sanitaryPipeCost pm * 100)
      else pure 0
    let storm ← pyGet dr "storm" (.obj [])
    let m2 ←
      if truthy storm then do
        let pm ← pyGetLower storm "pipe_material"
        pure (stormPipeCost pm * 100)
      else pure 0
    let grease ← pyGet dr "grease" (.obj [])
    let m3 ←
      if truthy grease then do
        let it ← pyGet grease "interceptor_type" .null
        pure (if truthy it then (2000 : ℚ) else 0)
      else pure 0
    .ok (m1 + m2 + m3)
  else .ok 0

/-- The fixture-type chain of the fixtures loop, in source order. -/
def fixtureCost (t : String) : ℚ :=
  if pyIn "toilet" t || pyIn "water closet" t then cost "toilet"
  else if pyIn "urinal" t then cost "urinal"
  else if pyIn "sink" t then cost "sink"
  else if pyIn "lavatory" t then cost "lavatory"
  else if pyIn "shower" t then cost "shower"
  else if pyIn "tub" t || pyIn "bathtub" t then cost "tub"
  else if pyIn "drinking" t && pyIn "fountain" t then cost "drinking_fountain"
  else cost "general"

/-- One iteration of the fixtures loop (`quantity = fixture.get("quantity", 1)
or 1`). -/
def fixtureStep (acc : ℚ) (fx : Json) : Except String ℚ := do
  let t ← pyGetLower fx "type"
  let qj ← pyGet fx "quantity" (.num 1)
  let q ← (if truthy qj then qj else .num 1).asNum
  .ok (acc + fixtureCost t * q)

/-- Water-heating contribution: tankless beats the fuel chain, times the
(defaulted) quantity. -/
def heatingCost (fs : Obj) : Except String ℚ := do
  let wh := lookupD fs "water_heating" (.obj [])
  if truthy wh then do
    let t ← pyGetLower wh "type"
    let fuel ← pyGetLower wh "fuel"
    let qj ← pyGet wh "quantity" (.num 1)
    let q ← (if truthy qj then qj else .num 1).asNum
    let hc :=
      if pyIn "tankless" t then cost "water_heater_tankless"
      else if pyIn "gas" fuel then cost "water_heater_gas"
      else if pyIn "electric" fuel then cost "water_heater_electric"
      else cost "general"
    .ok (hc * q)
  else .ok 0

/-- One iteration of the special-systems loop: 100 ft of gas piping, 50 ft
of medical-gas piping, or the general base cost. -/
def specialStep (acc : ℚ) (sys : Json) : Except String ℚ := do
  let t ← pyGetLower sys "type"
  .ok (acc +
    (if pyIn "gas" t && !pyIn "medical" t then cost "gas_piping" * 100
     else if pyIn "medical" t && pyIn "gas" t then cost "med_gas" * 50
     else cost "general"))

/-- Material and labor cost of the computation path
(`labor = material * 1.1`). -/
def computeCosts (fs : Obj) : Except String (ℚ × ℚ) := do
  let m1 ← waterSupplyCost fs
  let m2 ← drainageCost fs
  let fx ← pyIter (lookupD fs "fixtures" (.arr []))
  let m3 ← fx.foldlM fixtureStep 0
  let m4 ← heatingCost fs
  let sp ← pyIter (lookupD fs "special_systems" (.arr []))
  let m5 ← sp.foldlM specialStep 0
  let material := m1 + m2 + m3 + m4 + m5
  .ok (material, material * 1.1)

/-- The three writes into `results["cost_estimates"]`, in source order. -/
def costBlock (ce : Obj) (material labor : ℚ) : Obj :=
  setKey (setKey (setKey ce
    "estimated_material_cost" (costJson material))
    "estimated_labor_cost" (costJson labor))
    "currency" (.str "USD")

/-- The computation path of `format_results`. -/
def compute (fs ce : Obj) : Except String Obj :=
  (computeCosts fs).map (fun v =>
    setKey fs "cost_estimates" (.obj (costBlock ce v.1 v.2)))

/-- `PlumbingSystemsPlugin.format_results`. -/
def format_results (fs : Obj) : Except String Obj :=
  if hasKey fs "error" then .ok fs
  else
    match fs.lookup "cost_estimates" with
    | none => compute fs []
    | some (.obj ce) =>
      if truthy (lookupD ce "estimated_material_cost" .null) then .ok fs
      else compute fs ce
    | some _ => .error "AttributeError: object has no attribute get"

end PlumbingSystemsPlugin

namespace WallsPartitionsPlugin

/-- `costs` of `WallsPartitionsPlugin.format_results`, in source order. -/
def costs : List (String × ℚ) :=
  [("concrete", 22), ("masonry", 18.5), ("wood stud", 12),
   ("metal stud", 14.5), ("drywall", 2.5), ("plaster", 5), ("general", 15)]

/-- The `length`/`height` try-block of the area loops: a missing numeric
token in either string makes `.group(1)` raise `AttributeError`, which is
caught and skips the record; a non-string value makes `re.search` raise
`TypeError`, which is not caught. -/
def dimArea (lj hj : Json) : Except String ℚ :=
  match lj with
  | .str ls =>
    match firstNumber ls.data with
    | none => .ok 0
    | some l =>
      match hj with
      | .str hs =>
        match firstNumber hs.data with
        | none => .ok 0
        | some h => .ok (l * h)
      | _ => .error "TypeError: expected string or bytes-like object"
  | _ => .error "TypeError: expected string or bytes-like object"

/-- One iteration of the total-area loops: a truthy `quantity` is summed
directly; otherwise truthy `length` and `height` are parsed. -/
def areaStep (acc : ℚ) (w : Json) : Except String ℚ := do
  let q ← pyGet w "quantity" .null
  if truthy q then do
    let n ← q.asNum
    .ok (acc + n)
  else do
    let lj ← pyGet w "length" .null
    if truthy lj then do
      let hj ← pyGet w "height" .null
      if truthy hj then do
        let a ← dimArea lj hj
        .ok (acc + a)
      else .ok acc
    else .ok acc

/-- One iteration of the material-cost loops: `area = wall.get("quantity", 0)`
times the material-resolved rate. -/
def matStep (acc : ℚ) (w : Json) : Except String ℚ := do
  let aj ← pyGet w "quantity" (.num 0)
  let material ← pyGetLower w "material"
  let a ← aj.asNum
  let cps := resolveLoop ((costs.lookup "general").getD 0) costs material
  .ok (acc + a * cps)

/-- Areas and costs of the computation path
(`labor = material * 0.65`). -/
def computeVals (fs : Obj) : Except String (ℚ × ℚ × ℚ × ℚ) := do
  let walls ← pyIter (lookupD fs "walls" (.arr []))
  let total ← walls.foldlM areaStep 0
  let parts ← pyIter (lookupD fs "partitions" (.arr []))
  let pArea ← parts.foldlM areaStep 0
  let m1 ← walls.foldlM matStep 0
  let m2 ← parts.foldlM matStep 0
  let material := m1 + m2
  .ok (total, pArea, material, material * 0.65)

/-- The seven writes into `results["cost_estimates"]`, in source order. -/
def costBlock (ce : Obj) (total pArea material labor : ℚ) : Obj :=
  setKey (setKey (setKey (setKey (setKey (setKey (setKey ce
    "walls_total_area" (.num total))
    "walls_unit" (.str "SF"))
    "partitions_total_area" (.num pArea))
    "partitions_unit" (.str "SF"))
    "estimated_material_cost" (costJson material))
    "estimated_labor_cost" (costJson labor))
    "currency" (.str "USD")

/-- The computation path of `format_results`. -/
def compute (fs ce : Obj) : Except String Obj :=
  (computeVals fs).map (fun v =>
    setKey fs "cost_estimates" (.obj (costBlock ce v.1 v.2.1 v.2.2.1 v.2.2.2)))

/-- `WallsPartitionsPlugin.format_results`: pass-through also covers a
missing or empty `walls` list. -/
def format_results (fs : Obj) : Except String Obj :=
  if hasKey fs "error" || !truthy (lookupD fs "walls" .null) then .ok fs
  else
    match fs.lookup "cost_estimates" with
    | none => compute fs []
    | some (.obj ce) =>
      if truthy (lookupD ce "estimated_material_cost" .null) then .ok fs
      else compute fs ce
    | some _ => .error "AttributeError: object has no attribute get"

end WallsPartitionsPlugin

/-! ## The `analyze` body shared by the domain plugins

`DoorsWindowsPlugin.analyze`, `WallsPartitionsPlugin.analyze` and
`PlumbingSystemsPlugin.analyze` share this body character for character
(apart from the prompts).  The LLM completion call and `json.loads` are the
two external collaborators, passed in as functions; `json.loads` raising
`json.JSONDecodeError` is an `.error` carrying `str(e)`. -/

/-- The shared plugin `analyze`: validate, call the LLM on the first 4000
characters, then parse directly, fall back to the first ```json fenced
block, and report parse failure.  A `JSONDecodeError` raised by the
fenced-block parse escapes the inner handler and is caught by the outer
`except Exception`. -/
def pluginAnalyze (llm : String → Except String String)
    (jsonLoads : String → Except String Json) (text : String) : Json :=
  if validateInputDefault text then
    match llm (text.take 4000) with
    | .error e => errObj ("Error analyzing document: " ++ e)
    | .ok resp =>
      match jsonLoads resp with
      | .ok j => j
      | .error _ =>
        match extractFenced resp with
        | some content =>
          match jsonLoads content with
          | .ok j => j
          | .error e2 => errObj ("Error analyzing document: " ++ e2)
        | none =>
          .obj [("error", .str "Could not parse AI response as JSON"),
                ("raw_response", .str resp)]
  else errObj "Invalid input text for analysis"

/-! ## Fixtures and predicates used by the theorems -/

/-- The manager's invariant: every enabled id is a key of the plugin map. -/
def ManagerInv (m : Manager) : Prop :=
  ∀ pid ∈ m.enabled, (m.plugins pid).isSome

/-- The `estimated_*_cost` values a well-formed cost block may hold:
`null` or a non-negative number. -/
def nullOrNonneg : Option Json → Prop
  | some .null => True
  | some (.num q) => 0 ≤ q
  | _ => False

/-- `DoorsWindowsPlugin.format_results` takes its computation path (rather
than the short-circuit) iff the `cost_estimates` key is absent, or present
as a dict whose `estimated_doors_cost` is falsy. -/
def doorsComputeCond (fs : Obj) : Bool :=
  match fs.lookup "cost_estimates" with
  | none => true
  | some (.obj ce) => !truthy (lookupD ce "estimated_doors_cost" .null)
  | some _ => false

/-- The analogous computation-path condition of
`PlumbingSystemsPlugin.format_results`, keyed on `estimated_material_cost`. -/
def plumbComputeCond (fs : Obj) : Bool :=
  match fs.lookup "cost_estimates" with
  | none => true
  | some (.obj ce) => !truthy (lookupD ce "estimated_material_cost" .null)
  | some _ => false

/-- `json.loads` on the concrete non-JSON strings the counterexamples feed
it ("not valid", and a whole fenced response): it raises
`json.JSONDecodeError` with this message. -/
def jsonLoadsStub : String → Except String Json :=
  fun _ => .error "Expecting value: line 1 column 1 (char 0)"

/-- A plugin instance whose `analyze` returns a fixed result; input
validation and `format_results` are the base-class defaults. -/
def okPlugin (pid : String) (j : Json) : Plugin :=
  { id := pid, validate_input := validateInputDefault,
    analyze := fun _ _ => .ok j, format_results := fun r => .ok r }

/-- A plugin instance whose `analyze` raises. -/
def failPlugin (pid msg : String) : Plugin :=
  { id := pid, validate_input := validateInputDefault,
    analyze := fun _ _ => .error msg, format_results := fun r => .ok r }

/-- A manager with a succeeding plugin "a" and a raising plugin "b", both
enabled. -/
def mgrW : Manager :=
  { plugins := fun x =>
      if x = "a" then some (okPlugin "a" (.str "A"))
      else if x = "b" then some (failPlugin "b" "boom")
      else none,
    enabled := ["a", "b"] }

/-- A manager with "p" registered and enabled and "q" registered but not
enabled. -/
def mgrW2 : Manager :=
  { plugins := fun x =>
      if x = "p" then some (okPlugin "p" (.str "P"))
      else if x = "q" then some (okPlugin "q" (.str "Q"))
      else none,
    enabled := ["p"] }

def dwId : String := "architectural.doors_windows"

/-- `DoorsWindowsPlugin.format_results` lifted to a `Json` argument.
`analyze` always hands it a dict in this development; the non-dict branch
is unreachable here. -/
def dwFormatResults : Json → Except String Json
  | .obj fs => (DoorsWindowsPlugin.format_results fs).map Json.obj
  | _ => .error "TypeError: argument iteration failed"

/-- An LLM adapter whose completion call raises with the given message. -/
def llmFail (msg : String) : String → Except String String :=
  fun _ => .error msg

/-- The doors/windows plugin instance, parameterized by its two external
collaborators (the LLM call and `json.loads`). -/
def dwPlugin (llm : String → Except String String)
    (jl : String → Except String Json) : Plugin :=
  { id := dwId, validate_input := validateInputDefault,
    analyze := fun text _ => .ok (pluginAnalyze llm jl text),
    format_results := dwFormatResults }

/-- A manager holding only the doors/windows plugin, enabled. -/
def dwMgr (llm : String → Except String String)
    (jl : String → Except String Json) : Manager :=
  { plugins := fun x => if x = dwId then some (dwPlugin llm jl) else none,
    enabled := [dwId] }

/-- An LLM-supplied cost block with a truthy negative `estimated_doors_cost`
and no `currency` key. -/
def c4input : Obj :=
  [("cost_estimates", Json.obj [("estimated_doors_cost", Json.num (-5))])]

/-- Two solid-core doors, nothing else. -/
def c4fsW : Obj :=
  [("doors", Json.arr [Json.obj [("type", Json.str "solid core"),
                                 ("quantity", Json.num 2)]])]

/-- What `format_results` produces on `c4fsW`. -/
def c4outW : Obj :=
  c4fsW ++ [("cost_estimates", Json.obj
    [("doors_total_count", Json.num 2), ("windows_total_count", Json.null),
     ("estimated_doors_cost", Json.num 500),
     ("estimated_windows_cost", Json.null), ("currency", Json.str "USD")])]

/-- A door record whose `width` is an explicit JSON `null`. -/
def c5input : Obj :=
  [("doors", Json.arr [Json.obj [("width", Json.null)]])]

/-- One solid-core door whose `width` field is the string `w`. -/
def c5strInput (w : String) : Obj :=
  [("doors", Json.arr [Json.obj [("type", Json.str "solid core"),
                                 ("width", Json.str w)]])]

/-- What `format_results` produces on `c5strInput w` when `w` holds no
digits: the width degrades to 0 and the base $250 solid-core rate stands. -/
def c5strOutput (w : String) : Obj :=
  c5strInput w ++ [("cost_estimates", Json.obj
    [("doors_total_count", Json.num 1), ("windows_total_count", Json.null),
     ("estimated_doors_cost", Json.num 250),
     ("estimated_windows_cost", Json.null), ("currency", Json.str "USD")])]

/-- A wall whose `length` is an explicit JSON `null` (and whose `height`
parses): the walls plugin skips it gracefully. -/
def c5wallsInput : Obj :=
  [("walls", Json.arr [Json.obj [("material", Json.str "concrete"),
                                 ("length", Json.null),
                                 ("height", Json.str "10")]])]

/-- What the walls plugin produces on `c5wallsInput`. -/
def c5wallsOutput : Obj :=
  c5wallsInput ++ [("cost_estimates", Json.obj
    [("walls_total_area", Json.num 0), ("walls_unit", Json.str "SF"),
     ("partitions_total_area", Json.num 0),
     ("partitions_unit", Json.str "SF"),
     ("estimated_material_cost", Json.null),
     ("estimated_labor_cost", Json.null), ("currency", Json.str "USD")])]

/-- Exactly one fixture record: three toilets. -/
def c8input : Obj :=
  [("fixtures", Json.arr [Json.obj [("type", Json.str "toilet"),
                                    ("quantity", Json.num 3)]])]

/-- What the plumbing plugin produces on `c8input`:
3 × $350 = $1050 material, × 1.10 = $1155 labor. -/
def c8output : Obj :=
  c8input ++ [("cost_estimates", Json.obj
    [("estimated_material_cost", Json.num 1050),
     ("estimated_labor_cost", Json.num 1155), ("currency", Json.str "USD")])]

/-- An LLM response whose fenced block holds invalid JSON. -/
def c9resp : String := "```json\nnot valid\n```"

/-! ## Shared lemmas -/

theorem setKey_lookup_self {α : Type} (fs : List (String × α)) (k : String) (v : α) :
    (setKey fs k v).lookup k = some v := by
  induction fs with
  | nil => simp [setKey, List.lookup]
  | cons kv rest ih =>
    obtain ⟨k0, v0⟩ := kv
    by_cases h : k0 = k
    · subst h
      simp [setKey, List.lookup]
    · have hbeq : (k == k0) = false := by simp [Ne.symm h]
      simp [setKey, h, List.lookup, hbeq, ih]

theorem setKey_lookup_ne {α : Type} (fs : List (String × α)) (k k2 : String) (v : α)
    (h : k2 ≠ k) : (setKey fs k v).lookup k2 = fs.lookup k2 := by
  induction fs with
  | nil =>
    have hbeq : (k2 == k) = false := by simp [h]
    simp [setKey, List.lookup, hbeq]
  | cons kv rest ih =>
    obtain ⟨k0, v0⟩ := kv
    by_cases h0 : k0 = k
    · subst h0
      have hbeq : (k2 == k0) = false := by simp [h]
      simp [setKey, List.lookup, hbeq]
    · cases hbe : (k2 == k0) <;> simp [setKey, h0, List.lookup, hbe, ih]

theorem lookup_map_pair (f : String → Json) (l : List String) (q : String) :
    (l.map (fun x => (x, f x))).lookup q = if q ∈ l then some (f q) else none := by
  induction l with
  | nil => simp [List.lookup]
  | cons a t ih =>
    by_cases h : q = a
    · subst h
      simp [List.lookup]
    · have hbeq : (q == a) = false := by simp [h]
      simp [List.lookup, hbeq, ih, h]

theorem resolveLoop_of_find (table : List (String × ℚ)) (typ : String) (dflt : ℚ)
    (kv : String × ℚ) (h : table.find? (fun e => pyIn e.1 typ) = some kv) :
    resolveLoop dflt table typ = kv.2 := by
  induction table with
  | nil => simp at h
  | cons a t ih =>
    obtain ⟨k0, v0⟩ := a
    cases hb : pyIn k0 typ with
    | false =>
      simp [List.find?_cons, hb] at h
      simp [resolveLoop, hb, ih h]
    | true =>
      simp [List.find?_cons, hb] at h
      simp [resolveLoop, hb, ← h]

theorem resolveLoop_of_find_none (table : List (String × ℚ)) (typ : String) (dflt : ℚ)
    (h : table.find? (fun e => pyIn e.1 typ) = none) :
    resolveLoop dflt table typ = dflt := by
  induction table with
  | nil => simp [resolveLoop]
  | cons a t ih =>
    obtain ⟨k0, v0⟩ := a
    cases hb : pyIn k0 typ with
    | false =>
      rw [List.find?_cons_of_neg _ (by simp [hb])] at h
      simp [resolveLoop, hb, ih h]
    | true =>
      rw [List.find?_cons_of_pos _ (by simp [hb])] at h
      exact absurd h (by simp)

theorem pyRound2Num_nonneg (fl : ℤ) (r : ℚ) (h : 0 ≤ fl) : 0 ≤ pyRound2Num fl r := by
  rw [pyRound2Num]
  split
  · exact h
  · split
    · omega
    · split <;> omega

theorem pyRound2_nonneg (q : ℚ) (hq : 0 < q) : 0 ≤ pyRound2 q := by
  have hs : (0 : ℚ) ≤ q * 100 := by positivity
  have hfl : (0 : ℤ) ≤ ⌊q * 100⌋ := Int.floor_nonneg.2 hs
  rw [pyRound2]
  apply div_nonneg _ (by norm_num)
  exact_mod_cast pyRound2Num_nonneg _ _ hfl

theorem costJson_nullOrNonneg (q : ℚ) : nullOrNonneg (some (costJson q)) := by
  rw [costJson]
  by_cases h : q > 0
  · simp only [h, if_true, if_pos]
    exact pyRound2_nonneg q h
  · simp only [h, if_false, if_neg, not_false_iff]
    trivial

/-! ## C6 -/

/-- C6: for every type/material string and each domain cost table
(doors, windows, walls), the inline resolver loop returns the unit price of
the first keyword, in table-definition order, occurring as a substring of
the type string, and the table's `"general"` fallback price when no keyword
matches — i.e. it agrees with the spec-worded `resolveSpec`. -/
theorem cost_table_resolver_first_match (typ : String) :
    resolveLoop ((DoorsWindowsPlugin.door_costs.lookup "general").getD 0)
      DoorsWindowsPlugin.door_costs typ = resolveSpec DoorsWindowsPlugin.door_costs typ
    ∧ resolveLoop ((DoorsWindowsPlugin.window_costs.lookup "general").getD 0)
      DoorsWindowsPlugin.window_costs typ = resolveSpec DoorsWindowsPlugin.window_costs typ
    ∧ resolveLoop ((WallsPartitionsPlugin.costs.lookup "general").getD 0)
      WallsPartitionsPlugin.costs typ = resolveSpec WallsPartitionsPlugin.costs typ := by
  refine ⟨?_, ?_, ?_⟩ <;>
  · rw [resolveSpec]
    generalize hf : List.find? _ _ = f
    cases f with
    | none => exact resolveLoop_of_find_none _ _ _ hf
    | some kv => exact resolveLoop_of_find _ _ _ _ hf

/-! ## C7 -/

/-- C7: registering two plugin classes with the same non-empty id leaves the
registry returning the most recently registered class, with the
duplicate-id warning fired and no error raised; registering a class with an
empty id raises `ValueError` and leaves the registry unchanged. -/
theorem registry_register_semantics :
    (∀ (reg : List (String × PluginClass)) (c1 c2 : PluginClass),
      c1.id = c2.id → c1.id ≠ "" →
      ∃ reg1 w1, registerPluginClass reg c1 = .ok (reg1, w1)
        ∧ registerPluginClass reg1 c2 = .ok (setKey reg1 c2.id c2, true)
        ∧ get_plugin_by_id (setKey reg1 c2.id c2) c2.id = some c2)
    ∧ (∀ (reg : List (String × PluginClass)) (c : PluginClass), c.id = "" →
      registerPluginClass reg c = .error (noIdMsg c.klass)
        ∧ registryAfter reg c = reg) := by
  constructor
  · intro reg c1 c2 hid hne
    have hne2 : c2.id ≠ "" := hid ▸ hne
    refine ⟨setKey reg c1.id c1, (reg.lookup c1.id).isSome, ?_, ?_, ?_⟩
    · rw [registerPluginClass, if_neg hne]
    · rw [registerPluginClass, if_neg hne2]
      have : (setKey reg c1.id c1).lookup c2.id = some c1 := by
        rw [← hid]
        exact setKey_lookup_self reg c1.id c1
      rw [this]
      rfl
    · exact setKey_lookup_self _ _ _
  · intro reg c hid
    constructor
    · rw [registerPluginClass, if_pos hid]
    · rw [registryAfter, registerPluginClass, if_pos hid]

/-- Witness for C7 at concrete classes: two classes sharing id "arch.x",
and a class with an empty id. -/
theorem registry_register_semantics_witness :
    (∃ reg1 w1,
      registerPluginClass [] ⟨"ClassA", "arch.x"⟩ = .ok (reg1, w1)
        ∧ registerPluginClass reg1 ⟨"ClassB", "arch.x"⟩
            = .ok (setKey reg1 "arch.x" ⟨"ClassB", "arch.x"⟩, true)
        ∧ get_plugin_by_id (setKey reg1 "arch.x" ⟨"ClassB", "arch.x"⟩) "arch.x"
            = some ⟨"ClassB", "arch.x"⟩)
    ∧ registerPluginClass [] ⟨"ClassC", ""⟩ = .error (noIdMsg "ClassC")
    ∧ registryAfter [] ⟨"ClassC", ""⟩ = [] :=
  ⟨registry_register_semantics.1 [] ⟨"ClassA", "arch.x"⟩ ⟨"ClassB", "arch.x"⟩ rfl (by decide),
   (registry_register_semantics.2 [] ⟨"ClassC", ""⟩ rfl).1,
   (registry_register_semantics.2 [] ⟨"ClassC", ""⟩ rfl).2⟩

/-! ## C8 -/

/-- C8: on a plumbing result holding exactly one fixture record of type
"toilet" with quantity 3 and no other costed content, `format_results`
writes `estimated_material_cost = 1050.0` (3 × the $350 toilet rate) and
`estimated_labor_cost = 1155.0` (material × the 1.10 plumbing labor ratio,
rounded to 2 decimals). -/
theorem plumbing_three_toilets_cost :
    PlumbingSystemsPlugin.format_results c8input = .ok c8output := by
  with_unfolding_all rfl

/-! ## C1 -/

theorem run_all_lookup (m : Manager) (text : String) (ctx : Option Json) (q : String) :
    (m.run_all_enabled_plugins text ctx).lookup q
      = if q ∈ m.enabled then some (runEntry m text ctx q) else none := by
  rw [Manager.run_all_enabled_plugins]
  exact lookup_map_pair (runEntry m text ctx) m.enabled q

/-- C1: for every manager state whose plugin map contains all enabled ids,
`run_all_enabled_plugins` returns a map whose key list is exactly the
enabled set; a plugin whose run raised gets the entry
`{"error": str(exception)}`; and every other enabled plugin's entry is
exactly what it would be if the failing plugin were absent (dropped from
the enabled set). -/
theorem run_all_enabled_plugins_spec (m : Manager) (text : String) (ctx : Option Json)
    (hsub : ∀ pid ∈ m.enabled, (m.plugins pid).isSome) :
    (m.run_all_enabled_plugins text ctx).map Prod.fst = m.enabled
    ∧ (∀ pid ∈ m.enabled, ∀ e, m.run_analysis text pid ctx = .error e →
        (m.run_all_enabled_plugins text ctx).lookup pid = some (errObj e))
    ∧ (∀ pid q, q ∈ m.enabled → q ≠ pid →
        (m.run_all_enabled_plugins text ctx).lookup q
          = ((withoutEnabled m pid).run_all_enabled_plugins text ctx).lookup q) := by
  refine ⟨?_, ?_, ?_⟩
  · simp only [Manager.run_all_enabled_plugins, List.map_map, Function.comp_def]
    simp
  · intro pid hmem e he
    rw [run_all_lookup, if_pos hmem, runEntry, he]
  · intro pid q hq hne
    have hq2 : q ∈ (withoutEnabled m pid).enabled := by
      simp [withoutEnabled, List.mem_filter, hq, hne]
    rw [run_all_lookup, if_pos hq, run_all_lookup, if_pos hq2]
    have hpl : (withoutEnabled m pid).plugins = m.plugins := rfl
    have hrun : (withoutEnabled m pid).run_analysis text q ctx
        = m.run_analysis text q ctx := by
      rw [Manager.run_analysis, Manager.run_analysis, hpl]
      cases hc : m.plugins q with
      | none => rfl
      | some pl => simp [hq, hq2]
    rw [runEntry, runEntry, hrun]

/-- Witness for C1 at a concrete two-plugin manager whose plugin "b"
raises "boom". -/
theorem run_all_enabled_plugins_spec_witness :
    (mgrW.run_all_enabled_plugins "hello" none).map Prod.fst = mgrW.enabled
    ∧ (mgrW.run_all_enabled_plugins "hello" none).lookup "b" = some (errObj "boom")
    ∧ (mgrW.run_all_enabled_plugins "hello" none).lookup "a"
        = ((withoutEnabled mgrW "b").run_all_enabled_plugins "hello" none).lookup "a" :=
  ⟨(run_all_enabled_plugins_spec mgrW "hello" none (by decide)).1,
   (run_all_enabled_plugins_spec mgrW "hello" none (by decide)).2.1 "b" (by decide) "boom"
     (by with_unfolding_all rfl),
   (run_all_enabled_plugins_spec mgrW "hello" none (by decide)).2.2 "b" "a" (by decide)
     (by decide)⟩

/-! ## C2 -/

/-- C2: `run_analysis` fails with the "not found" error when the id is not
registered; with the "not enabled" error when registered but not enabled;
with the "invalid input" error when `validate_input` is false; and
otherwise returns `format_results(analyze(text, context))` — with the three
checks applied in exactly that priority order. -/
theorem run_analysis_precondition_order (m : Manager) (text pid : String)
    (ctx : Option Json) :
    (m.plugins pid = none →
      m.run_analysis text pid ctx = .error (notFoundMsg pid))
    ∧ (∀ p, m.plugins pid = some p → pid ∉ m.enabled →
      m.run_analysis text pid ctx = .error (notEnabledMsg pid))
    ∧ (∀ p, m.plugins pid = some p → pid ∈ m.enabled →
      p.validate_input text = false →
      m.run_analysis text pid ctx = .error invalidInputMsg)
    ∧ (∀ p, m.plugins pid = some p → pid ∈ m.enabled →
      p.validate_input text = true →
      m.run_analysis text pid ctx = (p.analyze text ctx).bind p.format_results) := by
  refine ⟨?_, ?_, ?_, ?_⟩
  · intro h
    rw [Manager.run_analysis, h]
  · intro p hp hmem
    rw [Manager.run_analysis, hp]
    simp [hmem]
  · intro p hp hmem hv
    rw [Manager.run_analysis, hp]
    simp [hmem, hv]
  · intro p hp hmem hv
    rw [Manager.run_analysis, hp]
    simp [hmem, hv]

/-- Witness for C2: an unregistered id, a registered-but-disabled id, a
whitespace-only text, and a successful run, on a concrete manager. -/
theorem run_analysis_precondition_order_witness :
    mgrW2.run_analysis "hi" "zz" none = .error (notFoundMsg "zz")
    ∧ mgrW2.run_analysis "hi" "q" none = .error (notEnabledMsg "q")
    ∧ mgrW2.run_analysis "   " "p" none = .error invalidInputMsg
    ∧ mgrW2.run_analysis "hi" "p" none
        = ((okPlugin "p" (.str "P")).analyze "hi" none).bind
            (okPlugin "p" (.str "P")).format_results :=
  ⟨(run_analysis_precondition_order mgrW2 "hi" "zz" none).1 (by with_unfolding_all rfl),
   (run_analysis_precondition_order mgrW2 "hi" "q" none).2.1 _ (by with_unfolding_all rfl)
     (by decide),
   (run_analysis_precondition_order mgrW2 "   " "p" none).2.2.1 _
     (by with_unfolding_all rfl) (by decide) (by decide),
   (run_analysis_precondition_order mgrW2 "hi" "p" none).2.2.2 _
     (by with_unfolding_all rfl) (by decide) (by decide)⟩

/-! ## C10 -/

/-- C10: `enabled_plugins ⊆ plugins.keys()` holds initially and is
preserved by `register_plugin`, `enable_plugin` and `disable_plugin`
(`run_analysis` and `run_all_enabled_plugins` never mutate the state, so
they preserve it trivially); registration never removes a plugin; and under
the invariant the plugin lookup of `run_analysis` succeeds for every
enabled id, so its "not found" branch is unreachable from
`run_all_enabled_plugins`. -/
theorem manager_enabled_subset_invariant :
    ManagerInv initManager
    ∧ (∀ m p m', ManagerInv m → m.register_plugin p = .ok m' → ManagerInv m')
    ∧ (∀ m pid m', ManagerInv m → m.enable_plugin pid = .ok m' → ManagerInv m')
    ∧ (∀ m pid, ManagerInv m → ManagerInv (m.disable_plugin pid))
    ∧ (∀ (m : Manager) (p : Plugin) (m' : Manager) (x : String),
        m.register_plugin p = .ok m' →
        (m.plugins x).isSome → (m'.plugins x).isSome)
    ∧ (∀ m text pid ctx, ManagerInv m → pid ∈ m.enabled →
        ∃ p, m.plugins pid = some p
          ∧ m.run_analysis text pid ctx
              = (if p.validate_input text then (p.analyze text ctx).bind p.format_results
                 else .error invalidInputMsg)) := by
  refine ⟨?_, ?_, ?_, ?_, ?_, ?_⟩
  · intro pid hmem
    simp [initManager] at hmem
  · intro m p m' hinv hreg
    rw [Manager.register_plugin] at hreg
    split at hreg
    · exact absurd hreg (by simp)
    · cases hreg
      intro pid hmem
      by_cases h : pid = p.id <;> simp [h, hinv pid hmem]
  · intro m pid m' hinv hen
    rw [Manager.enable_plugin] at hen
    split at hen
    · cases hen
      intro q hq
      simp only at hq
      split at hq
      · exact hinv q hq
      · rcases List.mem_append.1 hq with h | h
        · exact hinv q h
        · simp at h
          subst h
          assumption
    · exact absurd hen (by simp)
  · intro m pid hinv q hq
    rw [Manager.disable_plugin] at hq
    simp only at hq
    exact hinv q (List.mem_of_mem_filter hq)
  · intro m p m' x hreg hx
    rw [Manager.register_plugin] at hreg
    split at hreg
    · exact absurd hreg (by simp)
    · cases hreg
      by_cases h : x = p.id <;> simp [h, hx]
  · intro m text pid ctx hinv hmem
    obtain ⟨p, hp⟩ := Option.isSome_iff_exists.1 (hinv pid hmem)
    refine ⟨p, hp, ?_⟩
    rw [Manager.run_analysis, hp]
    simp [hmem]

/-- Witness for C10 on a concrete invariant-satisfying manager. -/
theorem manager_enabled_subset_invariant_witness :
    ∃ p, mgrW.plugins "a" = some p
      ∧ mgrW.run_analysis "t" "a" none
          = (if p.validate_input "t" then (p.analyze "t" none).bind p.format_results
             else .error invalidInputMsg) :=
  manager_enabled_subset_invariant.2.2.2.2.2 mgrW "t" "a" none
    (by unfold ManagerInv; decide) (by decide)

/-! ## C3 -/

/-- Counterexample for C3: with the doors/windows plugin registered and
enabled and valid input, an LLM call that raises "boom" does NOT propagate
out of `run_analysis` as a raised error — `analyze` catches it and
`run_analysis` returns normally with `{"error": "Error analyzing document:
boom"}`. -/
theorem llm_failure_counterexample :
    Manager.run_analysis (dwMgr (llmFail "boom") jsonLoadsStub) "door text" dwId none
      = .ok (errObj "Error analyzing document: boom") := by
  with_unfolding_all rfl

/-- C3 as amended: when the underlying LLM call raises with message `e`,
the plugin's `analyze` catches it and returns
`{"error": "Error analyzing document: " + e}`; a single-plugin
`run_analysis` call returns that dict normally (no raised error), and
`run_all_enabled` records the same dict under the plugin's id. -/
theorem llm_failure_returned_not_raised (e text : String)
    (h : validateInputDefault text = true) :
    Manager.run_analysis (dwMgr (llmFail e) jsonLoadsStub) text dwId none
      = .ok (errObj ("Error analyzing document: " ++ e))
    ∧ ((dwMgr (llmFail e) jsonLoadsStub).run_all_enabled_plugins text none).lookup dwId
      = some (errObj ("Error analyzing document: " ++ e)) := by
  have h1 : Manager.run_analysis (dwMgr (llmFail e) jsonLoadsStub) text dwId none
      = (if validateInputDefault text = true
         then ((dwPlugin (llmFail e) jsonLoadsStub).analyze text none).bind
                (dwPlugin (llmFail e) jsonLoadsStub).format_results
         else .error invalidInputMsg) := by
    with_unfolding_all rfl
  have h2 : ((dwPlugin (llmFail e) jsonLoadsStub).analyze text none).bind
      (dwPlugin (llmFail e) jsonLoadsStub).format_results
      = dwFormatResults (pluginAnalyze (llmFail e) jsonLoadsStub text) := by
    with_unfolding_all rfl
  have h3 : pluginAnalyze (llmFail e) jsonLoadsStub text
      = (if validateInputDefault text = true
         then errObj ("Error analyzing document: " ++ e)
         else errObj "Invalid input text for analysis") := by
    with_unfolding_all rfl
  have h4 : dwFormatResults (errObj ("Error analyzing document: " ++ e))
      = .ok (errObj ("Error analyzing document: " ++ e)) := by
    with_unfolding_all rfl
  have hrun : Manager.run_analysis (dwMgr (llmFail e) jsonLoadsStub) text dwId none
      = .ok (errObj ("Error analyzing document: " ++ e)) := by
    rw [h1, if_pos h, h2, h3, if_pos h, h4]
  refine ⟨hrun, ?_⟩
  have hmem : dwId ∈ (dwMgr (llmFail e) jsonLoadsStub).enabled := List.Mem.head []
  rw [run_all_lookup, if_pos hmem, runEntry, hrun]

/-- Witness for the amended C3 at a concrete message and text. -/
theorem llm_failure_returned_not_raised_witness :
    Manager.run_analysis (dwMgr (llmFail "boom") jsonLoadsStub) "wall text" dwId none
      = .ok (errObj ("Error analyzing document: " ++ "boom"))
    ∧ ((dwMgr (llmFail "boom") jsonLoadsStub).run_all_enabled_plugins
        "wall text" none).lookup dwId
      = some (errObj ("Error analyzing document: " ++ "boom")) :=
  llm_failure_returned_not_raised "boom" "wall text" (by decide)

/-! ## C9 -/

/-- Counterexample for C9: when the response's fenced block holds invalid
JSON, the inner `json.loads` raises out of the `JSONDecodeError` handler
into the outer `except Exception`, so `analyze` returns
`{"error": "Error analyzing document: <decode error>"}` — not the claimed
`{"error": "Could not parse AI response as JSON", "raw_response": ...}`. -/
theorem json_fallback_counterexample :
    pluginAnalyze (fun _ => .ok c9resp) jsonLoadsStub "wall text"
      = errObj ("Error analyzing document: Expecting value: line 1 column 1 (char 0)")
    ∧ pluginAnalyze (fun _ => .ok c9resp) jsonLoadsStub "wall text"
      ≠ Json.obj [("error", .str "Could not parse AI response as JSON"),
                  ("raw_response", .str c9resp)] := by
  have heq : pluginAnalyze (fun _ => .ok c9resp) jsonLoadsStub "wall text"
      = errObj ("Error analyzing document: Expecting value: line 1 column 1 (char 0)") := by
    with_unfolding_all rfl
  refine ⟨heq, ?_⟩
  intro hcontra
  rw [heq] at hcontra
  simp [errObj] at hcontra

/-- C9 as amended: for every LLM response, `analyze` returns the direct
parse when it succeeds; else the parse of the first fenced block's contents
when that succeeds; else, when no fenced block exists, the
"Could not parse" dict carrying the raw response; and when a fenced block
exists but its contents fail to parse, the decode error escapes to the
outer handler and the result is `{"error": "Error analyzing document:
<decode error>"}`. -/
theorem json_parse_fallback_chain (llm : String → Except String String)
    (jl : String → Except String Json) (text resp : String)
    (hv : validateInputDefault text = true)
    (hllm : llm (text.take 4000) = .ok resp) :
    (∀ j, jl resp = .ok j → pluginAnalyze llm jl text = j)
    ∧ (∀ e c j, jl resp = .error e → extractFenced resp = some c → jl c = .ok j →
        pluginAnalyze llm jl text = j)
    ∧ (∀ e, jl resp = .error e → extractFenced resp = none →
        pluginAnalyze llm jl text
          = .obj [("error", .str "Could not parse AI response as JSON"),
                  ("raw_response", .str resp)])
    ∧ (∀ e c e2, jl resp = .error e → extractFenced resp = some c →
        jl c = .error e2 →
        pluginAnalyze llm jl text = errObj ("Error analyzing document: " ++ e2)) := by
  refine ⟨?_, ?_, ?_, ?_⟩
  · intro j hj
    simp only [pluginAnalyze, hv, if_true, hllm, hj]
  · intro e c j he hc hj
    simp only [pluginAnalyze, hv, if_true, hllm, he, hc, hj]
  · intro e he hc
    simp only [pluginAnalyze, hv, if_true, hllm, he, hc]
  · intro e c e2 he hc he2
    simp only [pluginAnalyze, hv, if_true, hllm, he, hc, he2]

/-- Witness for the amended C9: a response that is not JSON and holds no
fenced block yields the "Could not parse" dict. -/
theorem json_parse_fallback_chain_witness :
    pluginAnalyze (fun _ => .ok "hello") jsonLoadsStub "some text"
      = .obj [("error", .str "Could not parse AI response as JSON"),
              ("raw_response", .str "hello")] :=
  (json_parse_fallback_chain (fun _ => .ok "hello") jsonLoadsStub "some text" "hello"
    (by decide) rfl).2.2.1 "Expecting value: line 1 column 1 (char 0)" rfl
    (by with_unfolding_all rfl)

/-! ## C4 -/

theorem doors_block_fields (ce : Obj) (dc wc dcost wcost : ℚ) :
    (DoorsWindowsPlugin.costBlock ce dc wc dcost wcost).lookup "currency"
      = some (.str "USD")
    ∧ (DoorsWindowsPlugin.costBlock ce dc wc dcost wcost).lookup "estimated_doors_cost"
      = some (costJson dcost)
    ∧ (DoorsWindowsPlugin.costBlock ce dc wc dcost wcost).lookup "estimated_windows_cost"
      = some (costJson wcost) := by
  rw [DoorsWindowsPlugin.costBlock]
  refine ⟨setKey_lookup_self _ _ _, ?_, ?_⟩
  · rw [setKey_lookup_ne _ _ _ _ (by decide), setKey_lookup_ne _ _ _ _ (by decide),
      setKey_lookup_self]
  · rw [setKey_lookup_ne _ _ _ _ (by decide), setKey_lookup_self]

theorem plumb_block_fields (ce : Obj) (material labor : ℚ) :
    (PlumbingSystemsPlugin.costBlock ce material labor).lookup "currency"
      = some (.str "USD")
    ∧ (PlumbingSystemsPlugin.costBlock ce material labor).lookup "estimated_material_cost"
      = some (costJson material)
    ∧ (PlumbingSystemsPlugin.costBlock ce material labor).lookup "estimated_labor_cost"
      = some (costJson labor) := by
  rw [PlumbingSystemsPlugin.costBlock]
  refine ⟨setKey_lookup_self _ _ _, ?_, ?_⟩
  · rw [setKey_lookup_ne _ _ _ _ (by decide), setKey_lookup_ne _ _ _ _ (by decide),
      setKey_lookup_self]
  · rw [setKey_lookup_ne _ _ _ _ (by decide), setKey_lookup_self]

theorem doors_computed_block (fs ce out : Obj)
    (h : DoorsWindowsPlugin.compute fs ce = .ok out) :
    ∃ b, out.lookup "cost_estimates" = some (.obj b)
      ∧ b.lookup "currency" = some (.str "USD")
      ∧ nullOrNonneg (b.lookup "estimated_doors_cost")
      ∧ nullOrNonneg (b.lookup "estimated_windows_cost") := by
  rw [DoorsWindowsPlugin.compute] at h
  cases hv : DoorsWindowsPlugin.computeVals fs with
  | error e =>
    rw [hv] at h
    exact absurd h (by simp [Except.map])
  | ok v =>
    rw [hv] at h
    simp only [Except.map, Except.ok.injEq] at h
    refine ⟨DoorsWindowsPlugin.costBlock ce v.1 v.2.1 v.2.2.1 v.2.2.2, ?_, ?_, ?_, ?_⟩
    · rw [← h]
      exact setKey_lookup_self _ _ _
    · exact (doors_block_fields ce v.1 v.2.1 v.2.2.1 v.2.2.2).1
    · rw [(doors_block_fields ce v.1 v.2.1 v.2.2.1 v.2.2.2).2.1]
      exact costJson_nullOrNonneg _
    · rw [(doors_block_fields ce v.1 v.2.1 v.2.2.1 v.2.2.2).2.2]
      exact costJson_nullOrNonneg _

theorem plumb_computed_block (fs ce out : Obj)
    (h : PlumbingSystemsPlugin.compute fs ce = .ok out) :
    ∃ b, out.lookup "cost_estimates" = some (.obj b)
      ∧ b.lookup "currency" = some (.str "USD")
      ∧ nullOrNonneg (b.lookup "estimated_material_cost")
      ∧ nullOrNonneg (b.lookup "estimated_labor_cost") := by
  rw [PlumbingSystemsPlugin.compute] at h
  cases hv : PlumbingSystemsPlugin.computeCosts fs with
  | error e =>
    rw [hv] at h
    exact absurd h (by simp [Except.map])
  | ok v =>
    rw [hv] at h
    simp only [Except.map, Except.ok.injEq] at h
    refine ⟨PlumbingSystemsPlugin.costBlock ce v.1 v.2, ?_, ?_, ?_, ?_⟩
    · rw [← h]
      exact setKey_lookup_self _ _ _
    · exact (plumb_block_fields ce v.1 v.2).1
    · rw [(plumb_block_fields ce v.1 v.2).2.1]
      exact costJson_nullOrNonneg _
    · rw [(plumb_block_fields ce v.1 v.2).2.2]
      exact costJson_nullOrNonneg _

/-- C4 as amended: the cost-block invariant (a `currency` of "USD" and
null-or-non-negative estimated costs) holds for every block the
doors/windows and plumbing plugins COMPUTE — i.e. whenever `format_results`
returns successfully through its computation path.  (On the short-circuit
path an LLM-supplied block is passed through unvalidated; see the
counterexample.) -/
theorem computed_cost_block_invariant :
    (∀ fs out, hasKey fs "error" = false → doorsComputeCond fs = true →
      DoorsWindowsPlugin.format_results fs = .ok out →
      ∃ b, out.lookup "cost_estimates" = some (.obj b)
        ∧ b.lookup "currency" = some (.str "USD")
        ∧ nullOrNonneg (b.lookup "estimated_doors_cost")
        ∧ nullOrNonneg (b.lookup "estimated_windows_cost"))
    ∧ (∀ fs out, hasKey fs "error" = false → plumbComputeCond fs = true →
      PlumbingSystemsPlugin.format_results fs = .ok out →
      ∃ b, out.lookup "cost_estimates" = some (.obj b)
        ∧ b.lookup "currency" = some (.str "USD")
        ∧ nullOrNonneg (b.lookup "estimated_material_cost")
        ∧ nullOrNonneg (b.lookup "estimated_labor_cost")) := by
  constructor
  · intro fs out herr hcond h
    rw [doorsComputeCond] at hcond
    rw [DoorsWindowsPlugin.format_results, herr] at h
    simp only [Bool.false_eq_true, if_false] at h
    cases hce : fs.lookup "cost_estimates" with
    | none =>
      rw [hce] at h
      exact doors_computed_block fs [] out h
    | some v =>
      rw [hce] at hcond h
      cases v with
      | obj ce =>
        have hcond2 : (!truthy (lookupD ce "estimated_doors_cost" Json.null)) = true :=
          hcond
        have h2 : (if truthy (lookupD ce "estimated_doors_cost" Json.null) = true
            then Except.ok fs else DoorsWindowsPlugin.compute fs ce) = Except.ok out := h
        have hcond3 : truthy (lookupD ce "estimated_doors_cost" Json.null) = false := by
          cases htv : truthy (lookupD ce "estimated_doors_cost" Json.null)
          · rfl
          · rw [htv] at hcond2
            exact absurd hcond2 (by decide)
        rw [hcond3] at h2
        simp only [Bool.false_eq_true, if_false] at h2
        exact doors_computed_block fs ce out h2
      | null => exact absurd (show (false : Bool) = true from hcond) (by decide)
      | bool b => exact absurd (show (false : Bool) = true from hcond) (by decide)
      | num q => exact absurd (show (false : Bool) = true from hcond) (by decide)
      | str s => exact absurd (show (false : Bool) = true from hcond) (by decide)
      | arr xs => exact absurd (show (false : Bool) = true from hcond) (by decide)
  · intro fs out herr hcond h
    rw [plumbComputeCond] at hcond
    rw [PlumbingSystemsPlugin.format_results, herr] at h
    simp only [Bool.false_eq_true, if_false] at h
    cases hce : fs.lookup "cost_estimates" with
    | none =>
      rw [hce] at h
      exact plumb_computed_block fs [] out h
    | some v =>
      rw [hce] at hcond h
      cases v with
      | obj ce =>
        have hcond2 : (!truthy (lookupD ce "estimated_material_cost" Json.null)) = true :=
          hcond
        have h2 : (if truthy (lookupD ce "estimated_material_cost" Json.null) = true
            then Except.ok fs else PlumbingSystemsPlugin.compute fs ce) = Except.ok out := h
        have hcond3 : truthy (lookupD ce "estimated_material_cost" Json.null) = false := by
          cases htv : truthy (lookupD ce "estimated_material_cost" Json.null)
          · rfl
          · rw [htv] at hcond2
            exact absurd hcond2 (by decide)
        rw [hcond3] at h2
        simp only [Bool.false_eq_true, if_false] at h2
        exact plumb_computed_block fs ce out h2
      | null => exact absurd (show (false : Bool) = true from hcond) (by decide)
      | bool b => exact absurd (show (false : Bool) = true from hcond) (by decide)
      | num q => exact absurd (show (false : Bool) = true from hcond) (by decide)
      | str s => exact absurd (show (false : Bool) = true from hcond) (by decide)
      | arr xs => exact absurd (show (false : Bool) = true from hcond) (by decide)

/-- Witness for the amended C4 at a concrete two-door input. -/
theorem computed_cost_block_invariant_witness :
    ∃ b, c4outW.lookup "cost_estimates" = some (.obj b)
      ∧ b.lookup "currency" = some (.str "USD")
      ∧ nullOrNonneg (b.lookup "estimated_doors_cost")
      ∧ nullOrNonneg (b.lookup "estimated_windows_cost") :=
  computed_cost_block_invariant.1 c4fsW c4outW (by with_unfolding_all rfl)
    (by with_unfolding_all rfl) (by with_unfolding_all rfl)

/-- Counterexample for C4: an LLM-supplied cost block whose
`estimated_doors_cost` is the (truthy, negative) number -5 and which lacks
`currency` short-circuits `format_results` and is returned untouched in a
successful result — violating both halves of the claimed invariant. -/
theorem cost_block_shortcircuit_counterexample :
    DoorsWindowsPlugin.format_results c4input = .ok c4input
    ∧ lookupD c4input "cost_estimates" .null
        = Json.obj [("estimated_doors_cost", Json.num (-5))]
    ∧ ([("estimated_doors_cost", Json.num (-5))] : Obj).lookup "currency" = none
    ∧ (-5 : ℚ) < 0 := by
  refine ⟨by with_unfolding_all rfl, by with_unfolding_all rfl,
    by with_unfolding_all rfl, by norm_num⟩

/-! ## C5 -/

theorem doors_format_of_vals (fs : Obj) (herr : hasKey fs "error" = false)
    (hnoce : fs.lookup "cost_estimates" = none) (v : ℚ × ℚ × ℚ × ℚ)
    (hv : DoorsWindowsPlugin.computeVals fs = .ok v) :
    DoorsWindowsPlugin.format_results fs
      = .ok (setKey fs "cost_estimates"
          (.obj (DoorsWindowsPlugin.costBlock [] v.1 v.2.1 v.2.2.1 v.2.2.2))) := by
  rw [DoorsWindowsPlugin.format_results, herr]
  simp only [Bool.false_eq_true, if_false]
  rw [hnoce]
  rw [DoorsWindowsPlugin.compute, hv]
  rfl

theorem doors_computeVals_parts (fs : Obj) (doors windows : List Json)
    (hd : pyIter (lookupD fs "doors" (.arr [])) = .ok doors)
    (hw : pyIter (lookupD fs "windows" (.arr [])) = .ok windows)
    (dstat wstat : ℚ × ℚ)
    (hdf : List.foldlM DoorsWindowsPlugin.doorStep ((0 : ℚ), (0 : ℚ)) doors = .ok dstat)
    (hwf : List.foldlM DoorsWindowsPlugin.windowStep ((0 : ℚ), (0 : ℚ)) windows = .ok wstat)
    (hds : ¬(dstat.1 = 0 ∧ truthy (lookupD fs "door_schedule" .null) = true))
    (hws : ¬(wstat.1 = 0 ∧ truthy (lookupD fs "window_schedule" .null) = true)) :
    DoorsWindowsPlugin.computeVals fs = .ok (dstat.1, wstat.1, dstat.2, wstat.2) := by
  rw [DoorsWindowsPlugin.computeVals, hd]
  simp only [bind, Except.bind]
  rw [hdf, hw]
  dsimp only
  rw [hwf]
  dsimp only
  rw [if_neg hds]
  simp only [pure, Except.pure]
  rw [if_neg hws]

/-- Counterexample for C5: a door record whose `width` is an explicit JSON
`null` makes `re.search` raise `TypeError`, which the
`except (ValueError, AttributeError)` clause does not catch —
`format_results` raises instead of returning normally. -/
theorem null_dimension_raises_counterexample :
    DoorsWindowsPlugin.format_results c5input
      = .error "TypeError: expected string or bytes-like object" := by
  with_unfolding_all rfl

/-- C5 as amended: the unit parser extracts the first decimal number
matching `\d+(\.\d+)?`; a digit-free string parses to `none`, which the
calculators treat as 0 (contributing no cost) while returning normally —
shown for the doors plugin on an arbitrary digit-free width string and for
the walls plugin on a record with a `null` length.  (An explicit `null`
dimension in the doors plugin raises instead; see the counterexample.) -/
theorem unit_parser_graceful_on_strings :
    (∀ s : List Char, (∀ c ∈ s, c.isDigit = false) → firstNumber s = none)
    ∧ firstNumber "3ft x 7ft".data = some 3
    ∧ firstNumber "7.5 ft".data = some (15 / 2)
    ∧ (∀ w : String, firstNumber w.data = none →
        DoorsWindowsPlugin.format_results (c5strInput w) = .ok (c5strOutput w))
    ∧ WallsPartitionsPlugin.format_results c5wallsInput = .ok c5wallsOutput := by
  refine ⟨?_, by with_unfolding_all rfl, by with_unfolding_all rfl, ?_,
    by with_unfolding_all rfl⟩
  · intro s hs
    induction s with
    | nil => rfl
    | cons c cs ih =>
      rw [firstNumber, hs c (List.mem_cons_self c cs)]
      simp only [Bool.false_eq_true, if_false]
      exact ih (fun c2 h2 => hs c2 (List.mem_cons_of_mem c h2))
  · intro w hw
    have hstep : DoorsWindowsPlugin.doorStep ((0 : ℚ), (0 : ℚ))
        (Json.obj [("type", Json.str "solid core"), ("width", Json.str w)])
        = .ok (0 + 1, 0 + 1 *
            (if (firstNumber w.data).getD 0 > 42 then 250 * 1.25 else 250)) := by
      with_unfolding_all rfl
    rw [hw] at hstep
    simp only [Option.getD_none] at hstep
    rw [if_neg (by norm_num : ¬((0 : ℚ) > 42))] at hstep
    rw [show (0 : ℚ) + 1 * 250 = 250 from by norm_num,
      show (0 : ℚ) + 1 = 1 from by norm_num] at hstep
    have hdf : List.foldlM DoorsWindowsPlugin.doorStep ((0 : ℚ), (0 : ℚ))
        [Json.obj [("type", Json.str "solid core"), ("width", Json.str w)]]
        = .ok (1, 250) := by
      rw [List.foldlM_cons, hstep]
      rfl
    have hds : ¬((((1 : ℚ), (250 : ℚ)).1 = 0
        ∧ truthy (lookupD (c5strInput w) "door_schedule" .null) = true)) := by
      rintro ⟨h1, h2⟩
      norm_num at h1
    have hws : ¬((((0 : ℚ), (0 : ℚ)).1 = 0
        ∧ truthy (lookupD (c5strInput w) "window_schedule" .null) = true)) := by
      rintro ⟨h1, h2⟩
      rw [show truthy (lookupD (c5strInput w) "window_schedule" Json.null) = false from
        by with_unfolding_all rfl] at h2
      exact absurd h2 (by decide)
    have hvals := doors_computeVals_parts (c5strInput w)
      [Json.obj [("type", Json.str "solid core"), ("width", Json.str w)]] []
      (by with_unfolding_all rfl) (by with_unfolding_all rfl)
      (1, 250) (0, 0) hdf (by rfl) hds hws
    have hform := doors_format_of_vals (c5strInput w) (by with_unfolding_all rfl)
      (by with_unfolding_all rfl) _ hvals
    rw [hform]
    with_unfolding_all rfl

/-- Witness for the amended C5: the digit-free strings "abc" and
"unknown size". -/
theorem unit_parser_graceful_on_strings_witness :
    firstNumber "abc".data = none
    ∧ DoorsWindowsPlugin.format_results (c5strInput "unknown size")
        = .ok (c5strOutput "unknown size") :=
  ⟨unit_parser_graceful_on_strings.1 "abc".data (by decide),
   unit_parser_graceful_on_strings.2.2.2.1 "unknown size" (by with_unfolding_all rfl)⟩
